import Mathlib

/-!
Verification of the rainfall-rate calibration analysis
(`src/docs/analysis/rainfall_rate_calculation_solution.py`).

The script computes, over floating-point numbers, a mass-conserving
rainfall scaling law.  We embed its arithmetic over `ℚ` (the script's
float computations are exact decimal/ratio arithmetic at the values it
uses, so `ℚ` is a faithful model), generalising the script's inline
constants into explicit parameters as the design document prescribes.
Divisions that would raise `ZeroDivisionError` in Python are modelled
with an `Option`-returning division.
-/

/-- A grid geometry `width × height`; the script forms `cells = width * height`
(lines 36-41 of the source). Dimensions are integers; the script never
validates their sign. -/
structure GridGeometry where
  width : ℤ
  height : ℤ
deriving DecidableEq

/-- `cellCount = width × height` (source lines 37, 41, 98). -/
def GridGeometry.cellCount (g : GridGeometry) : ℤ :=
  g.width * g.height

/-- The physical target: a daily rainfall in mm/day (source line 22). -/
structure PhysicalTarget where
  targetDailyRate : ℚ
deriving DecidableEq

/-- Unit conversion mm/day → m/hour: `target_rate_m_hour = target_daily_mm / (24 * 1000)`
(source line 25). -/
def PhysicalTarget.targetRatePerHour (t : PhysicalTarget) : ℚ :=
  t.targetDailyRate / (24 * 1000)

/-- Calibration context: the reference geometry and the physical target. -/
structure ScalingContext where
  reference : GridGeometry
  target : PhysicalTarget
deriving DecidableEq

/-- The calibrated constant the external simulator consumes. -/
structure RainfallRateResult where
  baseRate : ℚ
deriving DecidableEq

/-- Mass-conserving scaling factor `scaling_factor = ref_cells / cells`
(source lines 44 and 99). -/
def scalingFactor (ref g : GridGeometry) : ℚ :=
  (ref.cellCount : ℚ) / (g.cellCount : ℚ)

/-- Effective per-cell rate `eff_rate = base_rate * scale` (source line 100). -/
def effectiveRate (baseRate : ℚ) (ref g : GridGeometry) : ℚ :=
  baseRate * scalingFactor ref g

/-- `daily_mm = eff_rate * 24 * 1000` (source line 101). -/
def dailyMMOf (effRate : ℚ) : ℚ :=
  effRate * 24 * 1000

/-- `annual_mm = daily_mm * 365.25` (source line 102). -/
def annualMMOf (daily : ℚ) : ℚ :=
  daily * 365.25

/-- Realism classifier, source line 105:
`(0.5 <= daily_mm <= 10.0) and (200 <= annual_mm <= 2000)`. -/
def isRealistic (daily annual : ℚ) : Bool :=
  decide ((0.5 ≤ daily ∧ daily ≤ 10.0) ∧ (200 ≤ annual ∧ annual ≤ 2000))

/-- One row of the validation table (source lines 97-107). -/
structure GridDiagnostic where
  geometry : GridGeometry
  scalingFactor : ℚ
  effectiveRate : ℚ
  dailyMM : ℚ
  annualMM : ℚ
  isRealistic : Bool
deriving DecidableEq

/-- The per-geometry computation of the validation loop (source lines 98-105). -/
def gridDiagnostic (baseRate : ℚ) (ref g : GridGeometry) : GridDiagnostic :=
  ⟨g, scalingFactor ref g, effectiveRate baseRate ref g,
    dailyMMOf (effectiveRate baseRate ref g),
    annualMMOf (dailyMMOf (effectiveRate baseRate ref g)),
    isRealistic (dailyMMOf (effectiveRate baseRate ref g))
      (annualMMOf (dailyMMOf (effectiveRate baseRate ref g)))⟩

/-- The validator: one diagnostic per input geometry, input order preserved
(source lines 97-107 map the loop body over the grid list). -/
def validate (baseRate : ℚ) (ctx : ScalingContext) (gs : List GridGeometry) :
    List GridDiagnostic :=
  gs.map fun g => gridDiagnostic baseRate ctx.reference g

/-- Division as Python performs it: `a / b` raises `ZeroDivisionError` when
`b` is zero, so the result is `none` there. -/
def qdivOpt (a b : ℚ) : Option ℚ :=
  if b = 0 then none else some (a / b)

/-- The rate calculator, source lines 25, 44 and 76:
`optimal_base_rate = target_rate_m_hour / scaling_factor`, where
`scaling_factor = ref_cells / test_cells` is the factor of the calibration
(test) geometry, 25×25 in the script.  The script performs no input
validation; the only failure mode is Python's division by zero. -/
def computeOptimalRate (ctx : ScalingContext) (test : GridGeometry) :
    Option RainfallRateResult :=
  (qdivOpt ctx.target.targetDailyRate (24 * 1000)).bind fun targetRate =>
    (qdivOpt (ctx.reference.cellCount : ℚ) (test.cellCount : ℚ)).bind fun sf =>
      (qdivOpt targetRate sf).map fun b => ⟨b⟩

/-- The validator's per-entry computation with Python's division semantics:
the scaling factor `ref_cells / cells` (source line 99) is the only division. -/
def validateOne (baseRate : ℚ) (ctx : ScalingContext) (g : GridGeometry) :
    Option GridDiagnostic :=
  (qdivOpt (ctx.reference.cellCount : ℚ) (g.cellCount : ℚ)).map fun sf =>
    ⟨g, sf, baseRate * sf, dailyMMOf (baseRate * sf),
      annualMMOf (dailyMMOf (baseRate * sf)),
      isRealistic (dailyMMOf (baseRate * sf)) (annualMMOf (dailyMMOf (baseRate * sf)))⟩

/-- Conservation report (source lines 115-121). -/
structure ConservationReport where
  totalAtReference : ℚ
  totalAtOther : ℚ
  observedRatio : ℚ
  expectedRatio : ℚ
  withinTolerance : Bool
deriving DecidableEq

/-- The conservation checker, source lines 115-121:
`small_total = base * scaling_factor * other_cells`,
`ref_total = base * 1.0 * ref_cells`, observed ratio `ref_total / small_total`,
expected ratio `scaling_factor`, tolerance
`abs(ref_total/small_total - scaling_factor) < 0.01`. -/
def checkConservation (baseRate : ℚ) (ctx : ScalingContext) (other : GridGeometry) :
    Option ConservationReport :=
  (qdivOpt (ctx.reference.cellCount : ℚ) (other.cellCount : ℚ)).bind fun sf =>
    let totalOther := baseRate * sf * (other.cellCount : ℚ)
    let totalRef := baseRate * 1 * (ctx.reference.cellCount : ℚ)
    (qdivOpt totalRef totalOther).map fun obs =>
      ⟨totalRef, totalOther, obs, sf, decide (|obs - sf| < 0.01)⟩

/-- The script's reference geometry, 240×120 (source line 36). -/
def refGrid : GridGeometry := ⟨240, 120⟩

/-- The script's test geometry, 25×25 (source line 40). -/
def testGrid : GridGeometry := ⟨25, 25⟩

/-- The script's physical target, 3.0 mm/day (source line 22). -/
def scriptTarget : PhysicalTarget := ⟨3.0⟩

/-- The script's calibration context. -/
def scriptContext : ScalingContext := ⟨refGrid, scriptTarget⟩

/-- The pre-fix simulator constant `current_base_rate = 0.002` (source line 53). -/
def currentBaseRate : ℚ := 0.002

/-- The inverted area ratio of the bug demonstration:
`buggy_area_ratio = test_cells / ref_cells` (source line 56). -/
def buggyAreaRatio (ref test : GridGeometry) : ℚ :=
  (test.cellCount : ℚ) / (ref.cellCount : ℚ)

/-- The buggy effective rate `current_base_rate / buggy_area_ratio`
(source line 57). -/
def buggyEffectiveRate (baseRate : ℚ) (ref test : GridGeometry) : ℚ :=
  baseRate / buggyAreaRatio ref test

lemma qdivOpt_of_ne {b : ℚ} (a : ℚ) (h : b ≠ 0) : qdivOpt a b = some (a / b) := by
  simp [qdivOpt, h]

lemma cellCount_cast_ne_zero {g : GridGeometry} (h : g.cellCount ≠ 0) :
    ((g.cellCount : ℚ) : ℚ) ≠ 0 := by
  exact_mod_cast h

/-- On nonzero cell counts the rate calculator reduces to the closed formula
`targetRatePerHour / scalingFactor(reference, test)`. -/
lemma computeOptimalRate_eq (ctx : ScalingContext) (test : GridGeometry)
    (href : ctx.reference.cellCount ≠ 0) (htest : test.cellCount ≠ 0) :
    computeOptimalRate ctx test =
      some ⟨ctx.target.targetRatePerHour / scalingFactor ctx.reference test⟩ := by
  have h1 : ((24 * 1000 : ℚ)) ≠ 0 := by norm_num
  have h2 : ((test.cellCount : ℚ)) ≠ 0 := by exact_mod_cast htest
  have h3 : ((ctx.reference.cellCount : ℚ)) ≠ 0 := by exact_mod_cast href
  have hsf : ((ctx.reference.cellCount : ℚ) / (test.cellCount : ℚ)) ≠ 0 :=
    div_ne_zero h3 h2
  simp [computeOptimalRate, qdivOpt, PhysicalTarget.targetRatePerHour,
    scalingFactor, h1, h2, hsf]

/-- Claim C1, counterexample: at the script's own context (reference 240×120,
target 3.0 mm/day, test grid 25×25) the computed base rate is
`1/368640 ≈ 2.7127e-6` (source line 80 prints `0.0000027127`), which is not
`targetRatePerHour = 0.000125`. -/
theorem C1_base_rate_differs_from_target :
    (computeOptimalRate scriptContext testGrid).map RainfallRateResult.baseRate
      = some (1 / 368640) ∧
    (1 / 368640 : ℚ) ≠ scriptTarget.targetRatePerHour := by
  constructor
  · norm_num [computeOptimalRate, qdivOpt, scriptContext, scriptTarget, refGrid,
      testGrid, GridGeometry.cellCount]
  · norm_num [scriptTarget, PhysicalTarget.targetRatePerHour]

/-- Claim C1, amended: for every context with nonzero reference cell count and
every calibration (test) geometry with nonzero cell count, `computeOptimalRate`
returns `baseRate = targetRatePerHour / scalingFactor(reference, test)`, the
rate whose effective rate at the TEST geometry (not the reference) equals
`targetRatePerHour`. -/
theorem C1_base_rate_eq_target_div_test_sf (ctx : ScalingContext)
    (test : GridGeometry) (href : ctx.reference.cellCount ≠ 0)
    (htest : test.cellCount ≠ 0) :
    computeOptimalRate ctx test =
      some ⟨ctx.target.targetRatePerHour / scalingFactor ctx.reference test⟩ ∧
    (ctx.target.targetRatePerHour / scalingFactor ctx.reference test) *
        scalingFactor ctx.reference test = ctx.target.targetRatePerHour := by
  have h2 : ((test.cellCount : ℚ)) ≠ 0 := by exact_mod_cast htest
  have h3 : ((ctx.reference.cellCount : ℚ)) ≠ 0 := by exact_mod_cast href
  have hsf : scalingFactor ctx.reference test ≠ 0 := div_ne_zero h3 h2
  exact ⟨computeOptimalRate_eq ctx test href htest, div_mul_cancel₀ _ hsf⟩

/-- Witness for C1's amended theorem at the script's context. -/
theorem C1_base_rate_witness :
    scriptContext.reference.cellCount ≠ 0 ∧ testGrid.cellCount ≠ 0 ∧
    (computeOptimalRate scriptContext testGrid =
      some ⟨scriptContext.target.targetRatePerHour /
        scalingFactor scriptContext.reference testGrid⟩ ∧
    (scriptContext.target.targetRatePerHour /
        scalingFactor scriptContext.reference testGrid) *
        scalingFactor scriptContext.reference testGrid =
      scriptContext.target.targetRatePerHour) :=
  ⟨by decide, by decide,
    C1_base_rate_eq_target_div_test_sf scriptContext testGrid (by decide) (by decide)⟩

/-- Claim C2, code evaluation: at the script's own instance (the computed
optimal base rate, reference 240×120, other 25×25) the conservation check
yields both totals `5/64`, `observedRatio = 1`, `expectedRatio = 46.08`, and
`withinTolerance = false` — the script prints `POOR` (line 121) while its
final summary (line 183) claims the check is perfect. -/
theorem C2_conservation_check_fails :
    (computeOptimalRate scriptContext testGrid).map RainfallRateResult.baseRate
      = some (1 / 368640) ∧
    checkConservation (1 / 368640) scriptContext testGrid =
      some ⟨5 / 64, 5 / 64, 1, 46.08, false⟩ := by
  constructor
  · norm_num [computeOptimalRate, qdivOpt, scriptContext, scriptTarget, refGrid,
      testGrid, GridGeometry.cellCount]
  · norm_num [checkConservation, qdivOpt, scriptContext, refGrid, testGrid,
      GridGeometry.cellCount, decide_eq_false_iff_not]
    rw [abs_of_pos (by norm_num)]
    norm_num

/-- Claim C3, confirmed: every diagnostic produced by the validator is
classified realistic exactly when `0.5 ≤ dailyMM ≤ 10.0` and
`200 ≤ annualMM ≤ 2000`, all bounds inclusive, both conditions required
(source line 105). -/
theorem C3_isRealistic_iff (baseRate : ℚ) (ctx : ScalingContext)
    (gs : List GridGeometry) (d : GridDiagnostic)
    (hd : d ∈ validate baseRate ctx gs) :
    d.isRealistic = true ↔
      ((0.5 ≤ d.dailyMM ∧ d.dailyMM ≤ 10.0) ∧
        (200 ≤ d.annualMM ∧ d.annualMM ≤ 2000)) := by
  rcases List.mem_map.mp hd with ⟨g, _, rfl⟩
  simp [gridDiagnostic, isRealistic]

/-- Witness for C3 at a concrete validator call. -/
theorem C3_isRealistic_witness :
    gridDiagnostic (1 / 8000) refGrid testGrid
        ∈ validate (1 / 8000) scriptContext [testGrid] ∧
    ((gridDiagnostic (1 / 8000) refGrid testGrid).isRealistic = true ↔
      ((0.5 ≤ (gridDiagnostic (1 / 8000) refGrid testGrid).dailyMM ∧
          (gridDiagnostic (1 / 8000) refGrid testGrid).dailyMM ≤ 10.0) ∧
        (200 ≤ (gridDiagnostic (1 / 8000) refGrid testGrid).annualMM ∧
          (gridDiagnostic (1 / 8000) refGrid testGrid).annualMM ≤ 2000))) :=
  ⟨by simp [validate, scriptContext],
    C3_isRealistic_iff (1 / 8000) scriptContext [testGrid]
      (gridDiagnostic (1 / 8000) refGrid testGrid) (by simp [validate, scriptContext])⟩

/-- Claim C4, confirmed: for a fixed positive base rate and reference, the
total rainfall `effectiveRate(g) × g.cellCount` equals
`baseRate × reference.cellCount` for every geometry with positive cell count
— exactly, hence within any tolerance. -/
theorem C4_total_rainfall_invariant (b : ℚ) (ref g : GridGeometry)
    (hb : 0 < b) (href : 0 < ref.cellCount) (hg : 0 < g.cellCount) :
    effectiveRate b ref g * (g.cellCount : ℚ) = b * (ref.cellCount : ℚ) := by
  have hg' : ((g.cellCount : ℚ)) ≠ 0 := by
    exact_mod_cast hg.ne'
  rw [effectiveRate, scalingFactor]
  field_simp

/-- Witness for C4 at the script's grids. -/
theorem C4_total_rainfall_witness :
    (0 : ℚ) < 1 / 8000 ∧ 0 < refGrid.cellCount ∧ 0 < testGrid.cellCount ∧
    effectiveRate (1 / 8000) refGrid testGrid * (testGrid.cellCount : ℚ) =
      (1 / 8000 : ℚ) * (refGrid.cellCount : ℚ) :=
  ⟨by norm_num, by decide, by decide,
    C4_total_rainfall_invariant (1 / 8000) refGrid testGrid (by norm_num)
      (by decide) (by decide)⟩

/-- Claim C5, confirmed: with a positive base rate and positive cell counts,
strictly fewer cells give a strictly higher effective per-cell rate. -/
theorem C5_effectiveRate_strict_mono (b : ℚ) (ref a c : GridGeometry)
    (hb : 0 < b) (href : 0 < ref.cellCount) (ha : 0 < a.cellCount)
    (hc : 0 < c.cellCount) (hlt : a.cellCount < c.cellCount) :
    effectiveRate b ref c < effectiveRate b ref a := by
  have href' : (0 : ℚ) < (ref.cellCount : ℚ) := by exact_mod_cast href
  have ha' : (0 : ℚ) < (a.cellCount : ℚ) := by exact_mod_cast ha
  have hlt' : ((a.cellCount : ℚ)) < ((c.cellCount : ℚ)) := by exact_mod_cast hlt
  have key : (ref.cellCount : ℚ) / (c.cellCount : ℚ)
      < (ref.cellCount : ℚ) / (a.cellCount : ℚ) :=
    div_lt_div_of_pos_left href' ha' hlt'
  exact mul_lt_mul_of_pos_left key hb

/-- Witness for C5: the 25×25 grid gets a strictly higher rate than 240×120. -/
theorem C5_effectiveRate_witness :
    (0 : ℚ) < 1 / 8000 ∧ 0 < refGrid.cellCount ∧ 0 < testGrid.cellCount ∧
    testGrid.cellCount < refGrid.cellCount ∧
    effectiveRate (1 / 8000) refGrid refGrid <
      effectiveRate (1 / 8000) refGrid testGrid :=
  ⟨by norm_num, by decide, by decide, by decide,
    C5_effectiveRate_strict_mono (1 / 8000) refGrid testGrid refGrid
      (by norm_num) (by decide) (by decide) (by decide) (by decide)⟩

/-- Claim C6, counterexample: at the script's context the scaling factor at the
reference is 1, yet the effective rate at the reference geometry is the
computed base rate `1/368640`, which misses `targetRatePerHour = 1/8000` by
about `1.22e-4`, far beyond `1e-9`. -/
theorem C6_reference_rate_misses_target :
    scalingFactor refGrid refGrid = 1 ∧
    (computeOptimalRate scriptContext testGrid).map RainfallRateResult.baseRate
      = some (1 / 368640) ∧
    ¬(|effectiveRate (1 / 368640) refGrid refGrid -
        scriptTarget.targetRatePerHour| < 1 / 1000000000) := by
  refine ⟨by norm_num [scalingFactor, refGrid, GridGeometry.cellCount], ?_, ?_⟩
  · norm_num [computeOptimalRate, qdivOpt, scriptContext, scriptTarget, refGrid,
      testGrid, GridGeometry.cellCount]
  · norm_num [effectiveRate, scalingFactor, refGrid, GridGeometry.cellCount,
      scriptTarget, PhysicalTarget.targetRatePerHour]
    rw [abs_of_pos (by norm_num)]
    norm_num

/-- Claim C6, amended: after `computeOptimalRate`, `scalingFactor(reference)`
is exactly 1, and the effective rate reproduces `targetRatePerHour` exactly at
the calibration (test) geometry — not at the reference geometry. -/
theorem C6_reference_sf_one_and_test_roundtrip (ctx : ScalingContext)
    (test : GridGeometry) (href : ctx.reference.cellCount ≠ 0)
    (htest : test.cellCount ≠ 0) :
    scalingFactor ctx.reference ctx.reference = 1 ∧
    (computeOptimalRate ctx test).map
        (fun r => effectiveRate r.baseRate ctx.reference test)
      = some ctx.target.targetRatePerHour := by
  have h2 : ((test.cellCount : ℚ)) ≠ 0 := by exact_mod_cast htest
  have h3 : ((ctx.reference.cellCount : ℚ)) ≠ 0 := by exact_mod_cast href
  have hsf : scalingFactor ctx.reference test ≠ 0 := div_ne_zero h3 h2
  have key := div_mul_cancel₀ ctx.target.targetRatePerHour hsf
  constructor
  · simp only [scalingFactor]
    exact div_self h3
  · rw [computeOptimalRate_eq ctx test href htest]
    simp [effectiveRate, key]

/-- Witness for C6's amended theorem at the script's context. -/
theorem C6_reference_roundtrip_witness :
    scriptContext.reference.cellCount ≠ 0 ∧ testGrid.cellCount ≠ 0 ∧
    (scalingFactor scriptContext.reference scriptContext.reference = 1 ∧
      (computeOptimalRate scriptContext testGrid).map
          (fun r => effectiveRate r.baseRate scriptContext.reference testGrid)
        = some scriptContext.target.targetRatePerHour) :=
  ⟨by decide, by decide,
    C6_reference_sf_one_and_test_roundtrip scriptContext testGrid
      (by decide) (by decide)⟩

/-- Claim C7, code evaluation: with the base rate the script computes
(`1/368640`), the annual rainfall at the 240×120 reference geometry is
`12175/512 ≈ 23.78` mm/year — below 200, outside `[200, 2000]` — and the
script's own classifier marks the reference geometry unrealistic, although
its final summary (source line 182) labels this very value `(realistic)`. -/
theorem C7_reference_annual_below_range :
    (computeOptimalRate scriptContext testGrid).map
        (fun r => (gridDiagnostic r.baseRate refGrid refGrid).annualMM)
      = some (12175 / 512) ∧
    (gridDiagnostic (1 / 368640) refGrid refGrid).isRealistic = false ∧
    ¬(200 ≤ (12175 / 512 : ℚ)) := by
  refine ⟨?_, ?_, by norm_num⟩
  · norm_num [computeOptimalRate, qdivOpt, gridDiagnostic, scalingFactor,
      effectiveRate, dailyMMOf, annualMMOf, scriptContext, scriptTarget,
      refGrid, testGrid, GridGeometry.cellCount]
  · norm_num [gridDiagnostic, scalingFactor, effectiveRate, dailyMMOf,
      annualMMOf, isRealistic, refGrid, GridGeometry.cellCount,
      decide_eq_false_iff_not]

/-- Claim C8, confirmed: in the concrete scenario (reference 240×120, target
3.0 mm/day) with base rate 0.000125, the 25×25 geometry gets scaling factor
46.08, effective rate 0.00576 m/hour, 138.24 mm/day, and is classified not
realistic since 138.24 exceeds the daily upper bound 10.0. -/
theorem C8_concrete_scenario :
    scriptTarget.targetRatePerHour = 0.000125 ∧
    (gridDiagnostic 0.000125 refGrid testGrid).scalingFactor = 46.08 ∧
    (gridDiagnostic 0.000125 refGrid testGrid).effectiveRate = 0.00576 ∧
    (gridDiagnostic 0.000125 refGrid testGrid).dailyMM = 138.24 ∧
    (gridDiagnostic 0.000125 refGrid testGrid).isRealistic = false ∧
    ¬((138.24 : ℚ) ≤ 10.0) := by
  refine ⟨by norm_num [scriptTarget, PhysicalTarget.targetRatePerHour], ?_⟩
  norm_num [gridDiagnostic, scalingFactor, effectiveRate, dailyMMOf, annualMMOf,
    isRealistic, refGrid, testGrid, GridGeometry.cellCount,
    decide_eq_false_iff_not]

/-- Claim C9, counterexample: a non-positive physical target (−3 mm/day) and
non-positive grid dimensions (−25×25) are accepted by all three operations,
each of which returns a result object instead of failing. -/
theorem C9_invalid_inputs_still_return_results :
    (computeOptimalRate ⟨refGrid, ⟨-3⟩⟩ testGrid).isSome = true ∧
    (validateOne (1 / 8000) scriptContext ⟨-25, 25⟩).isSome = true ∧
    (checkConservation (1 / 8000) scriptContext ⟨-25, 25⟩).isSome = true := by
  norm_num [computeOptimalRate, validateOne, checkConservation, qdivOpt,
    scriptContext, refGrid, testGrid, GridGeometry.cellCount]

/-- Claim C9, amended: none of the three operations validates its inputs;
whenever every cell count involved is nonzero (and, for the conservation
checker, the base rate is nonzero, so that no division hits a zero
denominator), each operation returns a result object, with no constraint on
the sign of dimensions or of the physical target. -/
theorem C9_operations_never_reject (ctx : ScalingContext)
    (test g other : GridGeometry) (b : ℚ)
    (href : ctx.reference.cellCount ≠ 0) (htest : test.cellCount ≠ 0)
    (hg : g.cellCount ≠ 0) (hother : other.cellCount ≠ 0) (hb : b ≠ 0) :
    (computeOptimalRate ctx test).isSome = true ∧
    (validateOne b ctx g).isSome = true ∧
    (checkConservation b ctx other).isSome = true := by
  have h3 : ((ctx.reference.cellCount : ℚ)) ≠ 0 := by exact_mod_cast href
  have hg' : ((g.cellCount : ℚ)) ≠ 0 := by exact_mod_cast hg
  have ho' : ((other.cellCount : ℚ)) ≠ 0 := by exact_mod_cast hother
  have hsf : ((ctx.reference.cellCount : ℚ) / (other.cellCount : ℚ)) ≠ 0 :=
    div_ne_zero h3 ho'
  have htot : b * ((ctx.reference.cellCount : ℚ) / (other.cellCount : ℚ)) *
      (other.cellCount : ℚ) ≠ 0 := mul_ne_zero (mul_ne_zero hb hsf) ho'
  refine ⟨?_, ?_, ?_⟩
  · rw [computeOptimalRate_eq ctx test href htest]
    rfl
  · rw [validateOne, qdivOpt_of_ne _ hg']
    rfl
  · simp [checkConservation, qdivOpt, ho', htot]
    exact ⟨hb, href⟩

/-- Witness for C9's amended theorem at concrete invalid-signed inputs. -/
theorem C9_operations_never_reject_witness :
    (⟨refGrid, ⟨-3⟩⟩ : ScalingContext).reference.cellCount ≠ 0 ∧
    testGrid.cellCount ≠ 0 ∧ (⟨-25, 25⟩ : GridGeometry).cellCount ≠ 0 ∧
    (1 / 8000 : ℚ) ≠ 0 ∧
    ((computeOptimalRate ⟨refGrid, ⟨-3⟩⟩ testGrid).isSome = true ∧
      (validateOne (1 / 8000) ⟨refGrid, ⟨-3⟩⟩ ⟨-25, 25⟩).isSome = true ∧
      (checkConservation (1 / 8000) ⟨refGrid, ⟨-3⟩⟩ ⟨-25, 25⟩).isSome = true) :=
  ⟨by decide, by decide, by decide, by norm_num,
    C9_operations_never_reject ⟨refGrid, ⟨-3⟩⟩ testGrid ⟨-25, 25⟩ ⟨-25, 25⟩
      (1 / 8000) (by decide) (by decide) (by decide) (by decide) (by norm_num)⟩

/-- Claim C10, confirmed: dividing by the inverted area ratio
`test_cells / ref_cells` is algebraically the same operation as multiplying
by the mass-conserving scaling factor `ref_cells / test_cells`, so the
"buggy" effective-rate formula coincides with the correct scaling law on
every positive base rate and positive cell counts. -/
theorem C10_buggy_formula_eq_scaling_law (b : ℚ) (ref test : GridGeometry)
    (hb : 0 < b) (href : 0 < ref.cellCount) (htest : 0 < test.cellCount) :
    buggyEffectiveRate b ref test = effectiveRate b ref test := by
  unfold buggyEffectiveRate buggyAreaRatio effectiveRate scalingFactor
  rw [div_div_eq_mul_div, mul_div_assoc]

/-- Witness for C10 at the script's constants `current_base_rate = 0.002`,
240×120 and 25×25. -/
theorem C10_buggy_formula_witness :
    (0 : ℚ) < currentBaseRate ∧ 0 < refGrid.cellCount ∧
    0 < testGrid.cellCount ∧
    buggyEffectiveRate currentBaseRate refGrid testGrid =
      effectiveRate currentBaseRate refGrid testGrid :=
  ⟨by norm_num [currentBaseRate], by decide, by decide,
    C10_buggy_formula_eq_scaling_law currentBaseRate refGrid testGrid
      (by norm_num [currentBaseRate]) (by decide) (by decide)⟩
